import Mathlib

/-!
Verification development for the SmartDoc scaffolded Q&A backend.

The definitions below are a shallow embedding of the hint-escalation core:
the response-level policy and affordance table (`src/quiz_generator.py`),
the per-step hint counter, the conversation merge engine
(`src/database.py`), and the step relevance matcher (`src/utils.py`).
Machine-level details that are irrelevant to the properties (BSON object
ids, wall-clock datetimes) are modelled as opaque `String`/`Nat` values;
MongoDB single-document updates are modelled as pure functions on a list
of conversation documents.
-/

/-- Embeds the constant `HINT_CAP = 2` (src/quiz_generator.py, line 12). -/
def HINT_CAP : Nat := 2

/-- Embeds `ResponseLevel = Literal["Hint", "Steps", "Worked Solution", "Answer"]`
(src/models.py, line 6): the set of level strings accepted by request validation. -/
def ResponseLevel : List String := ["Hint", "Steps", "Worked Solution", "Answer"]

/-- Result shape of `QuizGenerator._next_buttons`: the dict with keys
`buttons_displayed` and `next_options_removed`. -/
structure Buttons where
  buttons_displayed : List String
  next_options_removed : List String
deriving DecidableEq

/-- Embeds `QuizGenerator._next_buttons` (src/quiz_generator.py, lines 59-77). -/
def next_buttons (response_level : String) (hint_count : Nat) : Buttons :=
  if response_level = "Hint" then
    if HINT_CAP ≤ hint_count then
      { buttons_displayed := ["Show Steps", "Worked Solution", "Just the Answer"],
        next_options_removed := ["More Hint"] }
    else
      { buttons_displayed := ["More Hint", "Show Steps", "Worked Solution", "Just the Answer"],
        next_options_removed := [] }
  else if response_level = "Steps" then
    { buttons_displayed := ["Worked Solution", "Just the Answer"],
      next_options_removed := ["More Hint"] }
  else if response_level = "Worked Solution" then
    { buttons_displayed := ["Just the Answer"],
      next_options_removed := ["More Hint", "Show Steps"] }
  else if response_level = "Answer" then
    { buttons_displayed := [],
      next_options_removed := ["More Hint", "Show Steps", "Worked Solution"] }
  else
    { buttons_displayed := ["Show Steps", "Worked Solution", "Just the Answer"],
      next_options_removed := ["More Hint"] }

/-- Embeds `QuizGenerator._instruction_for_level` (src/quiz_generator.py, lines 48-57). -/
def instruction_for_level (response_level : String) : String :=
  if response_level = "Hint" then
    "Chỉ đưa ra một gợi ý nhỏ, không tiết lộ lời giải hay từng bước cụ thể."
  else if response_level = "Steps" then
    "Trình bày các bước giải theo thứ tự rõ ràng, để chỗ trống cho người học tự điền, KHÔNG cho đáp án cuối."
  else if response_level = "Worked Solution" then
    "Giải chi tiết đầy đủ kèm lập luận. Được phép đưa đáp án nếu cần thiết theo ngữ cảnh học tập."
  else if response_level = "Answer" then
    "Chỉ viết đáp án cuối cùng, thật ngắn gọn, KHÔNG kèm giải thích."
  else
    "Chỉ đưa ra gợi ý nhỏ."

/-- Embeds the hint-cap auto-promotion inlined in
`QuizGenerator.generate_qna_content` (src/quiz_generator.py, lines 108-110):
`if response_level == "Hint" and prior_hints >= HINT_CAP: response_level = "Steps"`. -/
def decideEffectiveLevel (requested : String) (prior_hints : Nat) : String :=
  if requested = "Hint" ∧ HINT_CAP ≤ prior_hints then "Steps" else requested

/-- Embeds the hint count fed to `_next_buttons` after the current response
(src/quiz_generator.py, line 234):
`prior_hints + (1 if response_level == "Hint" else 0)`. -/
def hint_count_after (prior_hints : Nat) (effective_level : String) : Nat :=
  prior_hints + (if effective_level = "Hint" then 1 else 0)

/-- One step's interaction loop: starting from a prior hint count, process a
sequence of requested levels for the same step, producing the buttons returned
for each interaction.  Each interaction applies the auto-promotion of
src/quiz_generator.py lines 108-110, computes buttons with line 234's count,
and the served level is persisted so a served `"Hint"` raises the prior count
of the next interaction by one (`_count_prior_hints_for_step` counts the active
interaction plus every archived one whose stored level is `"Hint"`, and the
merge of src/database.py archives the previous active interaction unchanged). -/
def runLevels : Nat → List String → List Buttons
  | _, [] => []
  | prior, requested :: rest =>
    let eff := decideEffectiveLevel requested prior
    let after := hint_count_after prior eff
    next_buttons eff after :: runLevels after rest

/-- One archived interaction as written by the merge engine
(src/database.py, lines 55-59): the fields pushed onto
`escalation_history` are exactly timestamp, response_level and
llm_response. -/
structure HistEntry where
  timestamp : Nat
  response_level : String
  llm_response : String
deriving DecidableEq

/-- The `_context_used` payload (src/quiz_generator.py, lines 240-243). -/
structure ContextUsed where
  step_context_included : Bool
  student_code_context : Option String
deriving DecidableEq

/-- The `chatbot_interaction` dict built by `save_qna_to_chat`
(src/quiz_generator.py, lines 264-271). -/
structure Interaction where
  timestamp : Nat
  response_level : String
  context_used : ContextUsed
  llm_response : String
  buttons_displayed : List String
  next_options_removed : List String
deriving DecidableEq

/-- One element of a conversation's `qna_list`
(src/quiz_generator.py, lines 273-282).  `chatbot_interaction` is an
`Option` because the merge engine tests the dict for emptiness
(src/database.py, line 50). -/
structure QnaEntry where
  step : Int
  step_name : String
  student_query : String
  chatbot_interaction : Option Interaction
  escalation_history : List HistEntry
  relevant_info : String
  relevant_steps : List Int
  deleted : Bool
deriving DecidableEq

/-- One document of the chat collection (src/database.py, lines 88-99). -/
structure Conversation where
  room_id : String
  doc_id : String
  user_id : String
  user_email : String
  lab_name : String
  conversation_id : String
  started_at : Nat
  qna_list : List QnaEntry
  last_updated : Nat
  deleted : Bool
deriving DecidableEq

/-- The `conversation_data` argument of the merge engine
(src/quiz_generator.py, lines 284-291). -/
structure ConversationData where
  room_id : String
  doc_id : String
  user_id : String
  user_email : String
  lab_name : String
  qna_entry : QnaEntry
deriving DecidableEq

/-- Embeds the lookup `chat_collection.find_one({"room_id": .., "user_id": ..,
"deleted": {"$ne": True}})` (src/database.py, line 26 and
src/quiz_generator.py, line 80) over a list of documents. -/
def findConversation (db : List Conversation) (room_id user_id : String) :
    Option Conversation :=
  db.find? fun c => decide (c.room_id = room_id ∧ c.user_id = user_id ∧ c.deleted = false)

/-- Embeds the search for an existing, non-deleted qna entry for the step
(src/database.py, lines 33-38). -/
def findMatchIdx : List QnaEntry → Int → Option Nat
  | [], _ => none
  | q :: qs, step =>
    if ¬q.deleted ∧ q.step = step then some 0
    else (findMatchIdx qs step).map (· + 1)

/-- Embeds the escalation update applied to the found qna entry
(src/database.py, lines 46-82): when a prior interaction exists it is
pushed onto `escalation_history` (keeping its timestamp, level and
response text), and the active fields are overwritten; with no prior
interaction the active fields are just overwritten. -/
def escalateEntry (q : QnaEntry) (e : QnaEntry) : QnaEntry :=
  match q.chatbot_interaction with
  | some prior =>
    { q with
      escalation_history := q.escalation_history ++
        [{ timestamp := prior.timestamp,
           response_level := prior.response_level,
           llm_response := prior.llm_response }],
      student_query := e.student_query,
      chatbot_interaction := e.chatbot_interaction,
      relevant_info := e.relevant_info,
      relevant_steps := e.relevant_steps }
  | none =>
    { q with
      student_query := e.student_query,
      chatbot_interaction := e.chatbot_interaction,
      relevant_info := e.relevant_info,
      relevant_steps := e.relevant_steps }

/-- Applies `escalateEntry` at one index of the qna list, modelling the
positional `qna_list.{found_idx}` update paths of src/database.py. -/
def escalateAt : List QnaEntry → Nat → QnaEntry → List QnaEntry
  | [], _, _ => []
  | q :: qs, 0, e => escalateEntry q e :: qs
  | q :: qs, n + 1, e => q :: escalateAt qs n e

/-- The per-conversation effect of one merge on an existing conversation
(src/database.py, lines 29-84): append a fresh entry when the step is
absent, otherwise escalate in place; in either case `last_updated` is set. -/
def mergeIntoConversation (conv : Conversation) (entry : QnaEntry) (now : Nat) :
    Conversation :=
  match findMatchIdx conv.qna_list entry.step with
  | none => { conv with qna_list := conv.qna_list ++ [entry], last_updated := now }
  | some i => { conv with qna_list := escalateAt conv.qna_list i entry, last_updated := now }

/-- Replaces the first non-deleted document matching (room, user) — the
effect of `update_one` on the document found by `find_one`. -/
def updateConversation (db : List Conversation) (room_id user_id : String)
    (conv : Conversation) : List Conversation :=
  match db with
  | [] => [conv]
  | c :: cs =>
    if c.room_id = room_id ∧ c.user_id = user_id ∧ c.deleted = false then conv :: cs
    else c :: updateConversation cs room_id user_id conv

/-- Embeds `MongoDBManager.save_chat_conversation_with_pathway`
(src/database.py, lines 18-101) as a pure function on the chat
collection.  `now` models `datetime.now(timezone.utc)` and `freshId`
models `str(uuid4())`.  Returns the conversation id and the updated
collection. -/
def save_chat_conversation_with_pathway (db : List Conversation)
    (cd : ConversationData) (now : Nat) (freshId : String) :
    String × List Conversation :=
  match findConversation db cd.room_id cd.user_id with
  | some existing =>
    (existing.conversation_id,
     updateConversation db cd.room_id cd.user_id
       (mergeIntoConversation existing cd.qna_entry now))
  | none =>
    (freshId,
     db ++ [{ room_id := cd.room_id, doc_id := cd.doc_id, user_id := cd.user_id,
              user_email := cd.user_email, lab_name := cd.lab_name,
              conversation_id := freshId, started_at := now,
              qna_list := [cd.qna_entry], last_updated := now, deleted := false }])

/-- Per-entry hint contribution of `QuizGenerator._count_prior_hints_for_step`
(src/quiz_generator.py, lines 85-91): one for an active `"Hint"` interaction
plus one for each archived `"Hint"` interaction. -/
def hintsOfEntry (q : QnaEntry) : Nat :=
  (match q.chatbot_interaction with
   | some i => if i.response_level = "Hint" then 1 else 0
   | none => 0) +
  (q.escalation_history.filter fun h => decide (h.response_level = "Hint")).length

/-- Embeds `QuizGenerator._count_prior_hints_for_step`
(src/quiz_generator.py, lines 79-92). -/
def count_prior_hints_for_step (db : List Conversation)
    (room_id user_id : String) (step : Int) : Nat :=
  match findConversation db room_id user_id with
  | none => 0
  | some doc =>
    (doc.qna_list.map fun q =>
      if q.step = step ∧ ¬q.deleted then hintsOfEntry q else 0).sum

/-- The parsed JSON object the model is asked to return
(src/quiz_generator.py, lines 202-209). -/
structure QnaJson where
  step : Int
  step_name : String
  answer : String
  relevant_info : String
  relevant_steps : List Int
deriving DecidableEq

/-- The `_pathway` payload attached to a successful generation
(src/quiz_generator.py, lines 235-238). -/
structure Pathway where
  response_level : String
  buttons_displayed : List String
  next_options_removed : List String
deriving DecidableEq

/-- A successful `generate_qna_content` result: the parsed model JSON plus
the `_pathway` and `_context_used` payloads (src/quiz_generator.py,
lines 233-244). -/
structure QnaData where
  step : Int
  step_name : String
  answer : String
  relevant_info : String
  relevant_steps : List Int
  pathway : Pathway
  context_used : ContextUsed
deriving DecidableEq

/-- The request fields consumed by the scaffolding core
(src/quiz_generator.py, lines 96-106 and 253-257). -/
structure GenRequest where
  message : String
  extractedContent : List String
  step : Int
  step_name : String
  response_level : String
  room_id : String
  user_id : String
  doc_id : String
  user_email : String
  lab_name : String
  code_context : Option String
deriving DecidableEq

/-- Outcome of the model call (src/quiz_generator.py, lines 218-224):
either the exception caught at line 245, or the raw message content. -/
inductive LLMResult where
  | exn (msg : String)
  | out (raw : String)
deriving DecidableEq

/-- Python whitespace as used by `str.strip`, `str.split` and `\s`. -/
def isPySpace (c : Char) : Bool :=
  c = ' ' ∨ c = '\t' ∨ c = '\n' ∨ c = '\x0d' ∨ c = '\x0b' ∨ c = '\x0c'

/-- Models Python `str.strip()`. -/
def pyStrip (s : String) : String :=
  ⟨((s.data.dropWhile isPySpace).reverse.dropWhile isPySpace).reverse⟩

/-- Embeds `QuizGenerator.generate_qna_content` (src/quiz_generator.py,
lines 94-246) restricted to its observable result: prompt assembly is
glue feeding the external model, so the model call is a parameter
(`llm`), as is the external `json.loads` (`parseJson`, `none` meaning the
parse raised).  The error strings follow lines 228, 232 and 246. -/
def generate_qna_content (db : List Conversation) (req : GenRequest)
    (llm : LLMResult) (parseJson : String → Option QnaJson) :
    Except String QnaData :=
  let prior_hints := count_prior_hints_for_step db req.room_id req.user_id req.step
  let response_level := decideEffectiveLevel req.response_level prior_hints
  let current_step_content :=
    String.intercalate "\n" ((req.extractedContent.filter fun t => t ≠ "").map pyStrip)
  match llm with
  | .exn msg => .error ("Failed to generate Q&A content: " ++ msg)
  | .out raw =>
    let output := pyStrip raw
    if output = "" then
      .error "LLM returned empty output. Check prompt or model quota."
    else
      match parseJson output with
      | none => .error "LLM did not return valid JSON."
      | some j =>
        let buttons := next_buttons response_level (hint_count_after prior_hints response_level)
        .ok { step := j.step, step_name := j.step_name, answer := j.answer,
              relevant_info := j.relevant_info, relevant_steps := j.relevant_steps,
              pathway := { response_level := response_level,
                           buttons_displayed := buttons.buttons_displayed,
                           next_options_removed := buttons.next_options_removed },
              context_used := { step_context_included := pyStrip current_step_content ≠ "",
                                student_code_context := req.code_context } }

/-- Embeds `QuizGenerator.save_qna_to_chat` (src/quiz_generator.py, lines
248-293): builds the `chatbot_interaction`, `qna_entry` and
`conversation_data` dicts from a successful generation result. -/
def save_qna_to_chat (qna : QnaData) (req : GenRequest) (now : Nat) :
    ConversationData :=
  { room_id := req.room_id, doc_id := req.doc_id, user_id := req.user_id,
    user_email := req.user_email, lab_name := req.lab_name,
    qna_entry :=
      { step := qna.step, step_name := qna.step_name,
        student_query := req.message,
        chatbot_interaction := some
          { timestamp := now,
            response_level := qna.pathway.response_level,
            context_used := qna.context_used,
            llm_response := qna.answer,
            buttons_displayed := qna.pathway.buttons_displayed,
            next_options_removed := qna.pathway.next_options_removed },
        escalation_history := [],
        relevant_info := qna.relevant_info,
        relevant_steps := qna.relevant_steps,
        deleted := false } }

/-- Response shape of the `/chat` route (src/models.py, lines 114-118). -/
structure QnAResponse where
  success : Bool
  qna_content : Option QnaData
  error : Option String
  message : Option String
deriving DecidableEq

/-- Embeds the `/chat` route handler (src/app.py, lines 163-187): generate,
return a failure result without touching storage when the generator
reports an error, otherwise persist through the merge engine. -/
def chat_route (db : List Conversation) (req : GenRequest) (llm : LLMResult)
    (parseJson : String → Option QnaJson) (now : Nat) (freshId : String) :
    QnAResponse × List Conversation :=
  match generate_qna_content db req llm parseJson with
  | .error e =>
    ({ success := false, qna_content := none, error := some e, message := none }, db)
  | .ok qna =>
    let cd := save_qna_to_chat qna req now
    let merged := save_chat_conversation_with_pathway db cd now freshId
    ({ success := true, qna_content := some qna, error := none,
       message := some ("Successfully generated Q&A content (Conversation ID: "
         ++ merged.1 ++ ")") },
     merged.2)

/-- Models Python `str.lower` on the character repertoire this program
feeds it: ASCII letters via `Char.toLower`, plus the one non-ASCII
uppercase letter appearing in the spec's inputs (Đ → đ); all other
characters in the Vietnamese texts are already lowercase. -/
def lowerChar (c : Char) : Char :=
  if c = 'Đ' then 'đ' else c.toLower

/-- Models Python `str.lower` characterwise. -/
def pyLower (s : String) : String := ⟨s.data.map lowerChar⟩

/-- Models `re.sub(r"\s+", " ", ·)`: every maximal whitespace run becomes
one space. -/
def collapseWS : List Char → List Char
  | [] => []
  | [c] => [if isPySpace c then ' ' else c]
  | c :: d :: cs =>
    if isPySpace c ∧ isPySpace d then collapseWS (d :: cs)
    else (if isPySpace c then ' ' else c) :: collapseWS (d :: cs)

/-- Embeds the local `normalize` of `find_step_from_text`
(src/utils.py, lines 55-56): `re.sub(r"\s+", " ", text.strip().lower())`.
Named `normalizeText` because `normalize` is taken by the ambient library. -/
def normalizeText (s : String) : String := ⟨collapseWS (pyLower (pyStrip s)).data⟩

/-- Models Python's no-argument `str.split()`: split on whitespace runs,
dropping empty pieces.  `acc` is the current word, reversed. -/
def pySplitAux : List Char → List Char → List String
  | [], acc => if acc.isEmpty then [] else [⟨acc.reverse⟩]
  | c :: cs, acc =>
    if isPySpace c then
      if acc.isEmpty then pySplitAux cs [] else (⟨acc.reverse⟩ : String) :: pySplitAux cs []
    else pySplitAux cs (c :: acc)

/-- Models Python `str.split()` with no separator argument. -/
def pySplit (s : String) : List String := pySplitAux s.data []

/-- One `(step, text)` candidate of `para_points` (src/utils.py). -/
structure Para where
  step : Int
  text : String
deriving DecidableEq

/-- The threshold literal `0.5` of src/utils.py line 68, as the exact
rational `1/2`.  Written with `mkRat` because the ambient library's `(· / ·)`
on `ℚ` is sealed against kernel evaluation; `mkRat_eq_div_cast` below proves
it equal to `(1 : ℚ) / 2`. -/
def scoreThreshold : ℚ := mkRat 1 2

/-- The per-candidate score of `find_step_from_text` (src/utils.py, lines
62-66): `len(set(target.split()) & set(src.split())) / len(set(src.split()))`,
zero when the candidate has no tokens.  `target` is the already-normalized
fragment.  Python's true division `common / total` is embedded as the exact
rational `mkRat common total` (equal to `(common : ℚ) / total` by
`mkRat_eq_div_cast` below). -/
def loopScore (target : String) (p : Para) : ℚ :=
  let src := normalizeText p.text
  let common := (((pySplit src).dedup).filter fun w => decide (w ∈ (pySplit target).dedup)).length
  let total := ((pySplit src).dedup).length
  if 0 < total then mkRat common total else 0

/-- The selection loop of `find_step_from_text` (src/utils.py, lines 62-70):
keep the best score seen so far, replacing it only on a strictly higher
score that also exceeds 0.5. -/
def findStepLoop (target : String) : List Para → ℚ → Int → Int
  | [], _, bestStep => bestStep
  | p :: ps, bestScore, bestStep =>
    let score := loopScore target p
    if bestScore < score ∧ scoreThreshold < score then findStepLoop target ps score p.step
    else findStepLoop target ps bestScore bestStep

/-- Embeds `find_step_from_text` (src/utils.py, lines 53-72). -/
def find_step_from_text (source_text : String) (para_points : List Para) : Int :=
  let target := normalizeText source_text
  let bestStep := match para_points with | [] => (1 : Int) | p :: _ => p.step
  findStepLoop target para_points 0 bestStep

/-- The highest candidate score (zero when there are no candidates). -/
def maxLoopScore (target : String) (ps : List Para) : ℚ :=
  (ps.map (loopScore target)).foldr max 0

/-- Step of the first candidate attaining score `m`, default `d`. -/
def firstBest (target : String) (ps : List Para) (m : ℚ) (d : Int) : Int :=
  match ps.find? (fun p => decide (loopScore target p = m)) with
  | some p => p.step
  | none => d

/-- Modelled from the spec: §4.1's selection rule in its own words —
"Select the candidate with the strictly highest score, but only accept it
if score > 0.5; otherwise fall back to the first candidate's step, or 1
if no candidates exist. Ties are resolved by first-encountered order." -/
def find_step_spec (source_text : String) (ps : List Para) : Int :=
  let target := normalizeText source_text
  let d := match ps with | [] => (1 : Int) | p :: _ => p.step
  if scoreThreshold < maxLoopScore target ps then firstBest target ps (maxLoopScore target ps) d
  else d

/-- A concrete served-hint interaction, used to instantiate theorems. -/
def sampleInteraction : Interaction :=
  { timestamp := 10, response_level := "Hint",
    context_used := { step_context_included := true, student_code_context := none },
    llm_response := "Dua tren slide 3: goi y.",
    buttons_displayed := ["More Hint", "Show Steps", "Worked Solution", "Just the Answer"],
    next_options_removed := [] }

/-- A concrete active step entry for step 3. -/
def sampleEntry : QnaEntry :=
  { step := 3, step_name := "Buoc 3", student_query := "cau hoi 1",
    chatbot_interaction := some sampleInteraction, escalation_history := [],
    relevant_info := "", relevant_steps := [], deleted := false }

/-- A concrete conversation holding `sampleEntry`. -/
def sampleConv : Conversation :=
  { room_id := "R1", doc_id := "D1", user_id := "U1", user_email := "u1@x",
    lab_name := "Lab 1", conversation_id := "c-1", started_at := 5,
    qna_list := [sampleEntry], last_updated := 5, deleted := false }

/-- A concrete follow-up entry for the same step 3. -/
def sampleEntry2 : QnaEntry :=
  { step := 3, step_name := "Buoc 3", student_query := "cau hoi 2",
    chatbot_interaction := some
      { timestamp := 20, response_level := "Hint",
        context_used := { step_context_included := true, student_code_context := none },
        llm_response := "Dua tren slide 3: goi y 2.",
        buttons_displayed := ["Show Steps", "Worked Solution", "Just the Answer"],
        next_options_removed := ["More Hint"] },
    escalation_history := [], relevant_info := "", relevant_steps := [], deleted := false }

/-- Merge payload carrying `sampleEntry2` for (R1, U1). -/
def sampleCd : ConversationData :=
  { room_id := "R1", doc_id := "D1", user_id := "U1", user_email := "u1@x",
    lab_name := "Lab 1", qna_entry := sampleEntry2 }

/-- Merge payload like `sampleCd` but targeting step 4. -/
def sampleCd4 : ConversationData :=
  { sampleCd with qna_entry := { sampleEntry2 with step := 4 } }

/-- A concrete inbound request for step 3 at level Hint. -/
def sampleReq : GenRequest :=
  { message := "giup em buoc nay", extractedContent := ["noi dung buoc 3"],
    step := 3, step_name := "Buoc 3", response_level := "Hint",
    room_id := "R1", user_id := "U1", doc_id := "D1", user_email := "u1@x",
    lab_name := "Lab 1", code_context := none }

/-- A concrete parsed model answer for step 3. -/
def sampleJson : QnaJson :=
  { step := 3, step_name := "Buoc 3", answer := "Dua tren slide 3: goi y.",
    relevant_info := "", relevant_steps := [] }

/-- A `json.loads` stand-in that always fails. -/
def noParse : String → Option QnaJson := fun _ => none

/-- A `json.loads` stand-in that always yields `sampleJson`. -/
def okParse : String → Option QnaJson := fun _ => some sampleJson

/-- The generation result for `sampleReq` against `[sampleConv]` with a
non-empty model output parsed by `okParse`: one prior hint, effective
level `Hint`, affordance count 2 (at cap). -/
def sampleQnaOut : QnaData :=
  { step := 3, step_name := "Buoc 3", answer := "Dua tren slide 3: goi y.",
    relevant_info := "", relevant_steps := [],
    pathway := { response_level := "Hint",
                 buttons_displayed := ["Show Steps", "Worked Solution", "Just the Answer"],
                 next_options_removed := ["More Hint"] },
    context_used := { step_context_included := true, student_code_context := none } }

/-- Bridge: `mkRat` over naturals is exactly cast division, so `loopScore`
and `scoreThreshold` agree with the source's `common / total` and `0.5`. -/
theorem mkRat_eq_div_cast (n d : Nat) : mkRat (n : Int) d = (n : ℚ) / (d : ℚ) := by
  rw [Rat.mkRat_eq_div]; norm_num

/-- The threshold really is one half. -/
theorem scoreThreshold_eq : scoreThreshold = (1 : ℚ) / 2 := by
  rw [scoreThreshold, Rat.mkRat_eq_div]; norm_num

/-- Shared shape of a successful generation: the `_pathway` carries the
auto-promoted effective level and the buttons computed from it. -/
theorem generate_ok_pathway (db : List Conversation) (req : GenRequest)
    (llm : LLMResult) (parseJson : String → Option QnaJson) (qna : QnaData)
    (h : generate_qna_content db req llm parseJson = .ok qna) :
    qna.pathway.response_level =
      decideEffectiveLevel req.response_level
        (count_prior_hints_for_step db req.room_id req.user_id req.step) ∧
    qna.pathway.buttons_displayed =
      (next_buttons
        (decideEffectiveLevel req.response_level
          (count_prior_hints_for_step db req.room_id req.user_id req.step))
        (hint_count_after
          (count_prior_hints_for_step db req.room_id req.user_id req.step)
          (decideEffectiveLevel req.response_level
            (count_prior_hints_for_step db req.room_id req.user_id req.step)))).buttons_displayed ∧
    qna.pathway.next_options_removed =
      (next_buttons
        (decideEffectiveLevel req.response_level
          (count_prior_hints_for_step db req.room_id req.user_id req.step))
        (hint_count_after
          (count_prior_hints_for_step db req.room_id req.user_id req.step)
          (decideEffectiveLevel req.response_level
            (count_prior_hints_for_step db req.room_id req.user_id req.step)))).next_options_removed := by
  cases llm with
  | exn m => simp [generate_qna_content] at h
  | out raw =>
    simp only [generate_qna_content] at h
    by_cases hempty : pyStrip raw = ""
    · rw [if_pos hempty] at h; cases h
    · rw [if_neg hempty] at h
      cases hp : parseJson (pyStrip raw) with
      | none => rw [hp] at h; cases h
      | some j =>
        rw [hp] at h
        injection h with h
        subst h
        exact ⟨rfl, rfl, rfl⟩

/-- C2: a `Hint` request with at least `HINT_CAP = 2` prior hints for the
step is served at level `Steps`; every other combination of requested
level and prior hint count is served unchanged, and a successful
generation's pathway records exactly that effective level. -/
theorem hint_cap_promotes (requested : String) (prior : Nat) :
    (requested = "Hint" → HINT_CAP ≤ prior →
      decideEffectiveLevel requested prior = "Steps") ∧
    (¬(requested = "Hint" ∧ HINT_CAP ≤ prior) →
      decideEffectiveLevel requested prior = requested) ∧
    (∀ (db : List Conversation) (req : GenRequest) (llm : LLMResult)
       (parseJson : String → Option QnaJson) (qna : QnaData),
      generate_qna_content db req llm parseJson = .ok qna →
      qna.pathway.response_level =
        decideEffectiveLevel req.response_level
          (count_prior_hints_for_step db req.room_id req.user_id req.step)) := by
  refine ⟨?_, ?_, ?_⟩
  · intro h1 h2; rw [decideEffectiveLevel, if_pos ⟨h1, h2⟩]
  · intro h; rw [decideEffectiveLevel, if_neg h]
  · intro db req llm parseJson qna h
    exact (generate_ok_pathway db req llm parseJson qna h).1

/-- Witness for C2 at a concrete input: two prior hints promote a third
`Hint` request to `Steps`, while `Steps` at count 0 is unchanged. -/
theorem hint_cap_promotes_witness :
    decideEffectiveLevel "Hint" 2 = "Steps" ∧ decideEffectiveLevel "Steps" 0 = "Steps" :=
  ⟨(hint_cap_promotes "Hint" 2).1 rfl (by decide),
   (hint_cap_promotes "Steps" 0).2.1 (by decide)⟩

/-- C4: the affordance table of the policy, row by row: `Hint` below cap
keeps all four buttons and removes nothing; `Hint` at or above cap,
`Steps`, `Worked Solution` and `Answer` produce the stated shrinking
button and removal lists, in the stated order. -/
theorem next_buttons_table (hc : Nat) :
    (hc < HINT_CAP → next_buttons "Hint" hc =
      ⟨["More Hint", "Show Steps", "Worked Solution", "Just the Answer"], []⟩) ∧
    (HINT_CAP ≤ hc → next_buttons "Hint" hc =
      ⟨["Show Steps", "Worked Solution", "Just the Answer"], ["More Hint"]⟩) ∧
    next_buttons "Steps" hc = ⟨["Worked Solution", "Just the Answer"], ["More Hint"]⟩ ∧
    next_buttons "Worked Solution" hc = ⟨["Just the Answer"], ["More Hint", "Show Steps"]⟩ ∧
    next_buttons "Answer" hc = ⟨[], ["More Hint", "Show Steps", "Worked Solution"]⟩ := by
  refine ⟨?_, ?_, ?_, ?_, ?_⟩
  · intro h; rw [next_buttons, if_pos rfl, if_neg (by omega)]
  · intro h; rw [next_buttons, if_pos rfl, if_pos h]
  · simp [next_buttons]
  · simp [next_buttons]
  · simp [next_buttons]

/-- Witness for C4 at concrete counts 0 (below cap) and 2 (at cap). -/
theorem next_buttons_table_witness :
    next_buttons "Hint" 0 =
      ⟨["More Hint", "Show Steps", "Worked Solution", "Just the Answer"], []⟩ ∧
    next_buttons "Hint" 2 =
      ⟨["Show Steps", "Worked Solution", "Just the Answer"], ["More Hint"]⟩ :=
  ⟨(next_buttons_table 0).1 (by decide), (next_buttons_table 2).2.1 (by decide)⟩

/-- C6 counterexample: a requested `"More Hint"` is not treated
identically to `"Hint"` — with zero prior hints the policy returns a
different affordance set for it, and a different level instruction. -/
theorem more_hint_not_identical_to_hint :
    next_buttons "More Hint" 0 ≠ next_buttons "Hint" 0 ∧
    instruction_for_level "More Hint" ≠ instruction_for_level "Hint" := by
  decide

/-- C6 as amended: any level string outside the stored enumeration
(including the pseudo-level `"More Hint"`) is handled by total fallbacks —
the affordances fall back to the capped-hint set regardless of count, the
instruction falls back to a minimal hint instruction, the level passes
through auto-promotion unchanged, it never increments the policy's hint
count, and it lies outside the `ResponseLevel` enumeration that request
validation accepts, so it is never stored as a level. -/
theorem unrecognized_level_fallbacks (lvl : String) (n m : Nat)
    (h1 : lvl ≠ "Hint") (h2 : lvl ≠ "Steps")
    (h3 : lvl ≠ "Worked Solution") (h4 : lvl ≠ "Answer") :
    next_buttons lvl n =
      ⟨["Show Steps", "Worked Solution", "Just the Answer"], ["More Hint"]⟩ ∧
    instruction_for_level lvl = "Chỉ đưa ra gợi ý nhỏ." ∧
    decideEffectiveLevel lvl m = lvl ∧
    hint_count_after m lvl = m ∧
    lvl ∉ ResponseLevel := by
  refine ⟨?_, ?_, ?_, ?_, ?_⟩
  · rw [next_buttons, if_neg h1, if_neg h2, if_neg h3, if_neg h4]
  · rw [instruction_for_level, if_neg h1, if_neg h2, if_neg h3, if_neg h4]
  · rw [decideEffectiveLevel, if_neg (by tauto)]
  · rw [hint_count_after, if_neg h1]; omega
  · simp [ResponseLevel, h1, h2, h3, h4]

/-- Witness for the amended C6 at the concrete pseudo-level `"More Hint"`. -/
theorem unrecognized_level_fallbacks_witness :
    next_buttons "More Hint" 0 =
      ⟨["Show Steps", "Worked Solution", "Just the Answer"], ["More Hint"]⟩ ∧
    instruction_for_level "More Hint" = "Chỉ đưa ra gợi ý nhỏ." ∧
    decideEffectiveLevel "More Hint" 0 = "More Hint" ∧
    hint_count_after 0 "More Hint" = 0 ∧
    "More Hint" ∉ ResponseLevel :=
  unrecognized_level_fallbacks "More Hint" 0 0
    (by decide) (by decide) (by decide) (by decide)

/-- C3 counterexample: for the requested-level sequence `Answer` then
`Hint` on the same step with no prior hints, the first interaction
removes `More Hint` (buttons become empty) and the second re-offers it —
the affordance set grows and `More Hint` reappears after having been
removed, so the claimed monotonicity fails as stated. -/
theorem affordances_grow_after_answer_then_hint :
    runLevels 0 ["Answer", "Hint"] =
      [⟨[], ["More Hint", "Show Steps", "Worked Solution"]⟩,
       ⟨["More Hint", "Show Steps", "Worked Solution", "Just the Answer"], []⟩] ∧
    "More Hint" ∈ ((runLevels 0 ["Answer", "Hint"]).getD 0 ⟨[], []⟩).next_options_removed ∧
    "More Hint" ∈ ((runLevels 0 ["Answer", "Hint"]).getD 1 ⟨[], []⟩).buttons_displayed ∧
    ¬ ((runLevels 0 ["Answer", "Hint"]).getD 1 ⟨[], []⟩).buttons_displayed ⊆
        ((runLevels 0 ["Answer", "Hint"]).getD 0 ⟨[], []⟩).buttons_displayed := by
  decide

/-- `More Hint` is offered only for an effective `Hint` below the cap. -/
theorem more_hint_mem_buttons (lvl : String) (hc : Nat)
    (h : "More Hint" ∈ (next_buttons lvl hc).buttons_displayed) :
    lvl = "Hint" ∧ hc < HINT_CAP := by
  by_cases h1 : lvl = "Hint"
  · subst h1
    refine ⟨rfl, ?_⟩
    by_cases h2 : HINT_CAP ≤ hc
    · rw [next_buttons, if_pos rfl, if_pos h2] at h; simp at h
    · omega
  · exfalso
    by_cases h2 : lvl = "Steps"
    · subst h2; simp [next_buttons] at h
    · by_cases h3 : lvl = "Worked Solution"
      · subst h3; simp [next_buttons] at h
      · by_cases h4 : lvl = "Answer"
        · subst h4; simp [next_buttons] at h
        · rw [next_buttons, if_neg h1, if_neg h2, if_neg h3, if_neg h4] at h
          simp at h

/-- C3 as amended: once the step's prior hint count is at least one —
i.e. after any `Hint`-level response has been served for the step —
`More Hint` never again appears in `buttons_displayed` for any later
interaction on that step, whatever levels are requested.  (For arbitrary
sequences starting at zero prior hints the affordance set can grow, as
the counterexample shows.) -/
theorem more_hint_gone_after_first_hint (prior : Nat) (reqs : List String)
    (h : 1 ≤ prior) :
    ∀ br ∈ runLevels prior reqs, "More Hint" ∉ br.buttons_displayed := by
  induction reqs generalizing prior with
  | nil => intro br hbr; simp [runLevels] at hbr
  | cons r rest ih =>
    intro br hbr
    simp only [runLevels, List.mem_cons] at hbr
    rcases hbr with hbr | hbr
    · subst hbr
      intro hmem
      obtain ⟨heff, hlt⟩ := more_hint_mem_buttons _ _ hmem
      rw [decideEffectiveLevel] at heff
      by_cases hcase : r = "Hint" ∧ HINT_CAP ≤ prior
      · rw [if_pos hcase] at heff; exact absurd heff (by decide)
      · rw [if_neg hcase] at heff
        subst heff
        rw [hint_count_after, decideEffectiveLevel, if_neg hcase] at hlt
        simp [HINT_CAP] at hlt
        omega
    · refine ih (hint_count_after prior (decideEffectiveLevel r prior)) ?_ br hbr
      rw [hint_count_after]; omega

/-- Witness for the amended C3: with one prior hint already served, the
buttons of the first interaction of a concrete request sequence do not
offer `More Hint`. -/
theorem more_hint_gone_after_first_hint_witness :
    "More Hint" ∉
      ((runLevels 1 ["Hint", "Answer", "Hint"]).getD 0 ⟨[], []⟩).buttons_displayed :=
  more_hint_gone_after_first_hint 1 ["Hint", "Answer", "Hint"] (by decide)
    ((runLevels 1 ["Hint", "Answer", "Hint"]).getD 0 ⟨[], []⟩) (by decide)

/-- Summing the per-entry hint contributions over the whole list equals
summing them over the matching entries only. -/
theorem sum_hints_eq_sum_filter (l : List QnaEntry) (step : Int) :
    (l.map fun q => if q.step = step ∧ ¬q.deleted then hintsOfEntry q else 0).sum =
      ((l.filter fun q => decide (q.step = step ∧ ¬q.deleted)).map hintsOfEntry).sum := by
  induction l with
  | nil => rfl
  | cons q qs ih =>
    rw [List.map_cons, List.sum_cons, List.filter_cons]
    by_cases h : q.step = step ∧ ¬q.deleted
    · rw [if_pos h, if_pos (decide_eq_true h), List.map_cons, List.sum_cons, ih]
    · rw [if_neg h, if_neg (by simpa using h), ih]
      omega

/-- C5: the prior-hint count is 0 with no non-deleted conversation and 0
with no matching non-deleted step entry; with exactly one matching entry
it is that entry's active-`Hint` indicator plus its archived `Hint`
count; and the count handed to the affordance computation exceeds the
prior count by one exactly when the served level is `Hint`. -/
theorem count_prior_hints_correct (db : List Conversation)
    (room_id user_id : String) (step : Int) :
    (findConversation db room_id user_id = none →
      count_prior_hints_for_step db room_id user_id step = 0) ∧
    (∀ doc, findConversation db room_id user_id = some doc →
      (doc.qna_list.filter fun q => decide (q.step = step ∧ ¬q.deleted)) = [] →
      count_prior_hints_for_step db room_id user_id step = 0) ∧
    (∀ doc q, findConversation db room_id user_id = some doc →
      (doc.qna_list.filter fun q => decide (q.step = step ∧ ¬q.deleted)) = [q] →
      count_prior_hints_for_step db room_id user_id step = hintsOfEntry q) ∧
    (∀ (prior : Nat) (eff : String),
      hint_count_after prior eff = prior + 1 ↔ eff = "Hint") := by
  refine ⟨?_, ?_, ?_, ?_⟩
  · intro h; rw [count_prior_hints_for_step, h]
  · intro doc hfind hfilter
    rw [count_prior_hints_for_step, hfind]
    show (doc.qna_list.map fun q =>
      if q.step = step ∧ ¬q.deleted then hintsOfEntry q else 0).sum = 0
    rw [sum_hints_eq_sum_filter, hfilter]
    rfl
  · intro doc q hfind hfilter
    rw [count_prior_hints_for_step, hfind]
    show (doc.qna_list.map fun q =>
      if q.step = step ∧ ¬q.deleted then hintsOfEntry q else 0).sum = hintsOfEntry q
    rw [sum_hints_eq_sum_filter, hfilter]
    simp
  · intro prior eff
    constructor
    · intro h
      by_contra hne
      rw [hint_count_after, if_neg hne] at h
      omega
    · intro h; rw [hint_count_after, if_pos h]

/-- Witness for C5: in a concrete database holding one conversation with
one `Hint`-level entry for step 3, the counter returns that entry's
contribution, and serving another `Hint` raises the affordance count by
one. -/
theorem count_prior_hints_correct_witness :
    count_prior_hints_for_step [sampleConv] "R1" "U1" 3 = hintsOfEntry sampleEntry ∧
    (hint_count_after 1 "Hint" = 2 ↔ "Hint" = "Hint") :=
  ⟨(count_prior_hints_correct [sampleConv] "R1" "U1" 3).2.2.1 sampleConv sampleEntry
      (by decide) (by decide),
   (count_prior_hints_correct [sampleConv] "R1" "U1" 3).2.2.2 1 "Hint"⟩

/-- `escalateAt` leaves every other position untouched. -/
theorem escalateAt_getElem?_ne :
    ∀ (l : List QnaEntry) (i j : Nat) (e : QnaEntry), i ≠ j →
      (escalateAt l i e)[j]? = l[j]? := by
  intro l
  induction l with
  | nil => intro i j e _; rfl
  | cons q qs ih =>
    intro i j e hij
    cases i with
    | zero =>
      cases j with
      | zero => exact absurd rfl hij
      | succ m =>
        show (escalateEntry q e :: qs)[m + 1]? = (q :: qs)[m + 1]?
        simp only [List.getElem?_cons_succ]
    | succ n =>
      cases j with
      | zero =>
        show (q :: escalateAt qs n e)[0]? = (q :: qs)[0]?
        simp only [List.getElem?_cons_zero]
      | succ m =>
        show (q :: escalateAt qs n e)[m + 1]? = (q :: qs)[m + 1]?
        simp only [List.getElem?_cons_succ]
        exact ih n m e (by omega)

/-- `escalateAt` rewrites exactly the targeted position. -/
theorem escalateAt_getElem?_eq :
    ∀ (l : List QnaEntry) (i : Nat) (e : QnaEntry),
      (escalateAt l i e)[i]? = (l[i]?).map (fun q => escalateEntry q e) := by
  intro l
  induction l with
  | nil => intro i e; rfl
  | cons q qs ih =>
    intro i e
    cases i with
    | zero =>
      show (escalateEntry q e :: qs)[0]? = ((q :: qs)[0]?).map (fun q => escalateEntry q e)
      simp only [List.getElem?_cons_zero, Option.map_some']
    | succ n =>
      show (q :: escalateAt qs n e)[n + 1]? = ((q :: qs)[n + 1]?).map (fun q => escalateEntry q e)
      simp only [List.getElem?_cons_succ]
      exact ih n e

/-- Escalating an entry never shortens its history. -/
theorem escalateEntry_hist_mono (q e : QnaEntry) :
    q.escalation_history.length ≤ (escalateEntry q e).escalation_history.length := by
  rw [escalateEntry]
  cases q.chatbot_interaction with
  | none => exact le_refl _
  | some prior => simp

/-- C1: merging a new interaction onto a step whose existing non-deleted
entry has a non-empty active interaction appends exactly one element to
that entry's escalation history — the prior active interaction with its
timestamp, level and response text unchanged — and across any merge into
any conversation the history length of a surviving entry never
decreases. -/
theorem escalation_preserves_history
    (conv : Conversation) (cd : ConversationData) (now : Nat)
    (i : Nat) (q : QnaEntry) (prior : Interaction)
    (hfind : findMatchIdx conv.qna_list cd.qna_entry.step = some i)
    (hq : conv.qna_list[i]? = some q)
    (hact : q.chatbot_interaction = some prior) :
    ((mergeIntoConversation conv cd.qna_entry now).qna_list[i]? =
        some (escalateEntry q cd.qna_entry) ∧
      (escalateEntry q cd.qna_entry).escalation_history =
        q.escalation_history ++
          [{ timestamp := prior.timestamp, response_level := prior.response_level,
             llm_response := prior.llm_response }] ∧
      (escalateEntry q cd.qna_entry).escalation_history.length =
        q.escalation_history.length + 1) ∧
    (∀ (c : Conversation) (e : QnaEntry) (n j : Nat) (q1 q2 : QnaEntry),
      c.qna_list[j]? = some q1 →
      (mergeIntoConversation c e n).qna_list[j]? = some q2 →
      q1.escalation_history.length ≤ q2.escalation_history.length) := by
  constructor
  · refine ⟨?_, ?_, ?_⟩
    · rw [mergeIntoConversation, hfind]
      show (escalateAt conv.qna_list i cd.qna_entry)[i]? = _
      rw [escalateAt_getElem?_eq, hq]
      rfl
    · rw [escalateEntry, hact]
    · rw [escalateEntry, hact]; simp
  · intro c e n j q1 q2 h1 h2
    rw [mergeIntoConversation] at h2
    cases hidx : findMatchIdx c.qna_list e.step with
    | none =>
      rw [hidx] at h2
      have hlt : j < c.qna_list.length := by
        rcases List.getElem?_eq_some.mp h1 with ⟨hj, _⟩
        exact hj
      rw [show ({ c with qna_list := c.qna_list ++ [e], last_updated := n } :
            Conversation).qna_list = c.qna_list ++ [e] from rfl,
          List.getElem?_append_left hlt, h1] at h2
      injection h2 with h2
      rw [← h2]
    | some k =>
      rw [hidx] at h2
      rw [show ({ c with qna_list := escalateAt c.qna_list k e, last_updated := n } :
            Conversation).qna_list = escalateAt c.qna_list k e from rfl] at h2
      by_cases hkj : k = j
      · subst hkj
        rw [escalateAt_getElem?_eq, h1, Option.map_some'] at h2
        injection h2 with h2
        rw [← h2]
        exact escalateEntry_hist_mono q1 e
      · rw [escalateAt_getElem?_ne _ _ _ _ hkj, h1] at h2
        injection h2 with h2
        rw [← h2]

/-- Witness for C1: merging the concrete follow-up `sampleCd` into
`sampleConv` archives `sampleInteraction` as the single new history
element of the step-3 entry. -/
theorem escalation_preserves_history_witness :
    ((mergeIntoConversation sampleConv sampleCd.qna_entry 30).qna_list[0]? =
        some (escalateEntry sampleEntry sampleCd.qna_entry) ∧
      (escalateEntry sampleEntry sampleCd.qna_entry).escalation_history =
        sampleEntry.escalation_history ++
          [{ timestamp := sampleInteraction.timestamp,
             response_level := sampleInteraction.response_level,
             llm_response := sampleInteraction.llm_response }] ∧
      (escalateEntry sampleEntry sampleCd.qna_entry).escalation_history.length =
        sampleEntry.escalation_history.length + 1) ∧
    (∀ (c : Conversation) (e : QnaEntry) (n j : Nat) (q1 q2 : QnaEntry),
      c.qna_list[j]? = some q1 →
      (mergeIntoConversation c e n).qna_list[j]? = some q2 →
      q1.escalation_history.length ≤ q2.escalation_history.length) :=
  escalation_preserves_history sampleConv sampleCd 30 0 sampleEntry sampleInteraction
    (by decide) (by decide) (by decide)

/-- C9: a merge into an existing conversation leaves every qna entry
other than the targeted one untouched, and changes no conversation-level
field besides `qna_list` and `last_updated`. -/
theorem merge_step_isolation
    (conv : Conversation) (cd : ConversationData) (now : Nat) (j : Nat)
    (hj : findMatchIdx conv.qna_list cd.qna_entry.step ≠ some j)
    (hlt : j < conv.qna_list.length) :
    (mergeIntoConversation conv cd.qna_entry now).qna_list[j]? = conv.qna_list[j]? ∧
    (mergeIntoConversation conv cd.qna_entry now).room_id = conv.room_id ∧
    (mergeIntoConversation conv cd.qna_entry now).doc_id = conv.doc_id ∧
    (mergeIntoConversation conv cd.qna_entry now).user_id = conv.user_id ∧
    (mergeIntoConversation conv cd.qna_entry now).user_email = conv.user_email ∧
    (mergeIntoConversation conv cd.qna_entry now).lab_name = conv.lab_name ∧
    (mergeIntoConversation conv cd.qna_entry now).conversation_id = conv.conversation_id ∧
    (mergeIntoConversation conv cd.qna_entry now).started_at = conv.started_at ∧
    (mergeIntoConversation conv cd.qna_entry now).deleted = conv.deleted := by
  rw [mergeIntoConversation]
  cases hidx : findMatchIdx conv.qna_list cd.qna_entry.step with
  | none =>
    refine ⟨?_, rfl, rfl, rfl, rfl, rfl, rfl, rfl, rfl⟩
    show (conv.qna_list ++ [cd.qna_entry])[j]? = conv.qna_list[j]?
    exact List.getElem?_append_left hlt
  | some k =>
    have hkj : k ≠ j := fun h => hj (by rw [hidx, h])
    refine ⟨?_, rfl, rfl, rfl, rfl, rfl, rfl, rfl, rfl⟩
    show (escalateAt conv.qna_list k cd.qna_entry)[j]? = conv.qna_list[j]?
    exact escalateAt_getElem?_ne _ _ _ _ hkj

/-- Witness for C9: merging a step-4 interaction into `sampleConv` leaves
the step-3 entry and the conversation identity fields unchanged. -/
theorem merge_step_isolation_witness :
    (mergeIntoConversation sampleConv sampleCd4.qna_entry 30).qna_list[0]? =
      sampleConv.qna_list[0]? ∧
    (mergeIntoConversation sampleConv sampleCd4.qna_entry 30).room_id = sampleConv.room_id ∧
    (mergeIntoConversation sampleConv sampleCd4.qna_entry 30).doc_id = sampleConv.doc_id ∧
    (mergeIntoConversation sampleConv sampleCd4.qna_entry 30).user_id = sampleConv.user_id ∧
    (mergeIntoConversation sampleConv sampleCd4.qna_entry 30).user_email = sampleConv.user_email ∧
    (mergeIntoConversation sampleConv sampleCd4.qna_entry 30).lab_name = sampleConv.lab_name ∧
    (mergeIntoConversation sampleConv sampleCd4.qna_entry 30).conversation_id =
      sampleConv.conversation_id ∧
    (mergeIntoConversation sampleConv sampleCd4.qna_entry 30).started_at =
      sampleConv.started_at ∧
    (mergeIntoConversation sampleConv sampleCd4.qna_entry 30).deleted = sampleConv.deleted :=
  merge_step_isolation sampleConv sampleCd4 30 0 (by decide) (by decide)

/-- A generator error makes the route return a failure result with the
database untouched. -/
theorem chat_route_on_error (db : List Conversation) (req : GenRequest)
    (llm : LLMResult) (parseJson : String → Option QnaJson) (now : Nat)
    (freshId : String) (e : String)
    (hgen : generate_qna_content db req llm parseJson = .error e) :
    chat_route db req llm parseJson now freshId =
      ({ success := false, qna_content := none, error := some e, message := none }, db) := by
  rw [chat_route, hgen]

/-- C8: whenever the model call raises, or returns output that is empty
after stripping, or returns output the JSON parser rejects, the
generator surfaces an error result and the `/chat` route returns a
failure without touching storage: the conversation collection is
returned unchanged. -/
theorem model_failure_no_mutation (db : List Conversation) (req : GenRequest)
    (llm : LLMResult) (parseJson : String → Option QnaJson) (now : Nat)
    (freshId : String)
    (hfail : (∃ m, llm = .exn m) ∨
      (∃ raw, llm = .out raw ∧
        (pyStrip raw = "" ∨ parseJson (pyStrip raw) = none))) :
    ∃ e, generate_qna_content db req llm parseJson = .error e ∧
      chat_route db req llm parseJson now freshId =
        ({ success := false, qna_content := none, error := some e, message := none }, db) := by
  rcases hfail with ⟨m, rfl⟩ | ⟨raw, rfl, hcase⟩
  · exact ⟨_, rfl, chat_route_on_error _ _ _ _ _ _ _ rfl⟩
  · by_cases hempty : pyStrip raw = ""
    · refine ⟨"LLM returned empty output. Check prompt or model quota.", ?_, ?_⟩
      · rw [generate_qna_content]
        show (if pyStrip raw = "" then _ else _) = _
        rw [if_pos hempty]
      · exact chat_route_on_error _ _ _ _ _ _ _ (by
          rw [generate_qna_content]
          show (if pyStrip raw = "" then _ else _) = _
          rw [if_pos hempty])
    · rcases hcase with hcase | hcase
      · exact absurd hcase hempty
      · refine ⟨"LLM did not return valid JSON.", ?_, ?_⟩
        · rw [generate_qna_content]
          show (if pyStrip raw = "" then _ else _) = _
          rw [if_neg hempty, hcase]
        · exact chat_route_on_error _ _ _ _ _ _ _ (by
            rw [generate_qna_content]
            show (if pyStrip raw = "" then _ else _) = _
            rw [if_neg hempty, hcase])

/-- Witness for C8: a concrete model exception leaves the concrete
database unchanged and produces a failure response. -/
theorem model_failure_no_mutation_witness :
    ∃ e, generate_qna_content [sampleConv] sampleReq (.exn "timeout") noParse = .error e ∧
      chat_route [sampleConv] sampleReq (.exn "timeout") noParse 40 "c-9" =
        ({ success := false, qna_content := none, error := some e, message := none },
         [sampleConv]) :=
  model_failure_no_mutation [sampleConv] sampleReq (.exn "timeout") noParse 40 "c-9"
    (Or.inl ⟨"timeout", rfl⟩)

/-- C10: for a successful generation, the interaction handed to the merge
engine stores the effective response level (after auto-promotion, so a
capped `Hint` request is stored as `Steps`, never as the requested
level), together with exactly the `buttons_displayed` and
`next_options_removed` lists returned to the caller, and the newly built
step entry carries `deleted = false` and an empty escalation history. -/
theorem persisted_interaction_matches_served (db : List Conversation)
    (req : GenRequest) (llm : LLMResult) (parseJson : String → Option QnaJson)
    (qna : QnaData) (now : Nat)
    (h : generate_qna_content db req llm parseJson = .ok qna) :
    ∃ i : Interaction,
      (save_qna_to_chat qna req now).qna_entry.chatbot_interaction = some i ∧
      i.response_level =
        decideEffectiveLevel req.response_level
          (count_prior_hints_for_step db req.room_id req.user_id req.step) ∧
      (req.response_level = "Hint" →
        HINT_CAP ≤ count_prior_hints_for_step db req.room_id req.user_id req.step →
        i.response_level = "Steps") ∧
      i.buttons_displayed = qna.pathway.buttons_displayed ∧
      i.next_options_removed = qna.pathway.next_options_removed ∧
      i.llm_response = qna.answer ∧
      (save_qna_to_chat qna req now).qna_entry.deleted = false ∧
      (save_qna_to_chat qna req now).qna_entry.escalation_history = [] := by
  obtain ⟨hlevel, _, _⟩ := generate_ok_pathway db req llm parseJson qna h
  refine ⟨_, rfl, ?_, ?_, rfl, rfl, rfl, rfl, rfl⟩
  · show qna.pathway.response_level = _
    exact hlevel
  · intro hreq hcap
    show qna.pathway.response_level = "Steps"
    rw [hlevel, decideEffectiveLevel, if_pos ⟨hreq, hcap⟩]

/-- Witness for C10: a concrete successful generation against the
database holding one prior hint for step 3 persists effective level
`Hint` with the returned button lists, a fresh empty history and
`deleted = false`. -/
theorem persisted_interaction_matches_served_witness :
    ∃ i : Interaction,
      (save_qna_to_chat sampleQnaOut sampleReq 50).qna_entry.chatbot_interaction = some i ∧
      i.response_level =
        decideEffectiveLevel sampleReq.response_level
          (count_prior_hints_for_step [sampleConv] sampleReq.room_id
            sampleReq.user_id sampleReq.step) ∧
      (sampleReq.response_level = "Hint" →
        HINT_CAP ≤ count_prior_hints_for_step [sampleConv] sampleReq.room_id
          sampleReq.user_id sampleReq.step →
        i.response_level = "Steps") ∧
      i.buttons_displayed = sampleQnaOut.pathway.buttons_displayed ∧
      i.next_options_removed = sampleQnaOut.pathway.next_options_removed ∧
      i.llm_response = sampleQnaOut.answer ∧
      (save_qna_to_chat sampleQnaOut sampleReq 50).qna_entry.deleted = false ∧
      (save_qna_to_chat sampleQnaOut sampleReq 50).qna_entry.escalation_history = [] :=
  persisted_interaction_matches_served [sampleConv] sampleReq (.out "raw") okParse
    sampleQnaOut 50 rfl

/-- Candidate scores are never negative. -/
theorem loopScore_nonneg (target : String) (p : Para) : 0 ≤ loopScore target p := by
  simp only [loopScore]
  split_ifs with h
  · rw [Rat.mkRat_eq_div]
    positivity
  · exact le_refl 0

/-- The acceptance threshold is positive. -/
theorem scoreThreshold_pos : 0 < scoreThreshold := by decide

/-- `maxLoopScore` over a cons is the max of head score and tail maximum. -/
theorem maxLoopScore_cons (t : String) (p : Para) (ps : List Para) :
    maxLoopScore t (p :: ps) = max (loopScore t p) (maxLoopScore t ps) := rfl

/-- A positive maximal score is attained by some candidate. -/
theorem maxLoopScore_mem (t : String) (ps : List Para) :
    maxLoopScore t ps = 0 ∨ ∃ p ∈ ps, loopScore t p = maxLoopScore t ps := by
  induction ps with
  | nil => exact Or.inl rfl
  | cons p ps ih =>
    rw [maxLoopScore_cons]
    rcases le_total (maxLoopScore t ps) (loopScore t p) with h | h
    · exact Or.inr ⟨p, List.mem_cons_self p ps, (max_eq_left h).symm⟩
    · rcases ih with h0 | ⟨q, hq, hsc⟩
      · exact Or.inl (by rw [max_eq_right h, h0])
      · exact Or.inr ⟨q, List.mem_cons_of_mem p hq, by rw [max_eq_right h, ← hsc]⟩

/-- `firstBest` picks the head when its score matches. -/
theorem firstBest_cons_pos (t : String) (p : Para) (ps : List Para) (m : ℚ) (d : Int)
    (h : loopScore t p = m) : firstBest t (p :: ps) m d = p.step := by
  rw [firstBest,
    @List.find?_cons_of_pos _ (fun q => decide (loopScore t q = m)) p ps (decide_eq_true h)]

/-- `firstBest` skips a head whose score differs. -/
theorem firstBest_cons_neg (t : String) (p : Para) (ps : List Para) (m : ℚ) (d : Int)
    (h : loopScore t p ≠ m) : firstBest t (p :: ps) m d = firstBest t ps m d := by
  rw [firstBest,
    @List.find?_cons_of_neg _ (fun q => decide (loopScore t q = m)) p ps (by simpa using h),
    firstBest]

/-- The fallback of `firstBest` is irrelevant once the score is attained. -/
theorem firstBest_default_irrel (t : String) (m : ℚ) (d1 d2 : Int) :
    ∀ ps : List Para, (∃ p ∈ ps, loopScore t p = m) →
      firstBest t ps m d1 = firstBest t ps m d2 := by
  intro ps
  induction ps with
  | nil =>
    intro hex
    rcases hex with ⟨p, hp, _⟩
    exact absurd hp (List.not_mem_nil p)
  | cons p ps ih =>
    intro hex
    by_cases hp : loopScore t p = m
    · rw [firstBest_cons_pos t p ps m d1 hp, firstBest_cons_pos t p ps m d2 hp]
    · rw [firstBest_cons_neg t p ps m d1 hp, firstBest_cons_neg t p ps m d2 hp]
      apply ih
      rcases hex with ⟨q, hq, hsc⟩
      rcases List.mem_cons.mp hq with rfl | hq2
      · exact absurd hsc hp
      · exact ⟨q, hq2, hsc⟩

/-- The running best of `find_step_from_text`, started at best score `b`
and fallback step `s`, selects the first candidate attaining the maximal
score when that maximum beats both `b` and the 0.5 threshold, and the
fallback otherwise. -/
theorem findStepLoop_eq_spec (target : String) :
    ∀ (ps : List Para) (b : ℚ) (s : Int),
      findStepLoop target ps b s =
        if max b scoreThreshold < maxLoopScore target ps then
          firstBest target ps (maxLoopScore target ps) s
        else s := by
  intro ps
  induction ps with
  | nil =>
    intro b s
    have h : ¬ max b scoreThreshold < maxLoopScore target [] := by
      rw [show maxLoopScore target [] = 0 from rfl]
      exact not_lt.mpr (le_trans scoreThreshold_pos.le (le_max_right b scoreThreshold))
    rw [if_neg h]
    rfl
  | cons p ps ih =>
    intro b s
    have hcons : maxLoopScore target (p :: ps) =
        max (loopScore target p) (maxLoopScore target ps) := rfl
    have hnn : 0 ≤ loopScore target p := loopScore_nonneg target p
    show (if b < loopScore target p ∧ scoreThreshold < loopScore target p then
            findStepLoop target ps (loopScore target p) p.step
          else findStepLoop target ps b s) = _
    set s0 := loopScore target p with hs0def
    set M := maxLoopScore target ps with hMdef
    by_cases hcond : b < s0 ∧ scoreThreshold < s0
    · rw [if_pos hcond, ih s0 p.step]
      have hthr : max s0 scoreThreshold = s0 := max_eq_left hcond.2.le
      by_cases hlt : s0 < M
      · rw [hthr, if_pos hlt]
        have hMax : maxLoopScore target (p :: ps) = M := by
          rw [hcons]; exact max_eq_right hlt.le
        have hbthr : max b scoreThreshold < maxLoopScore target (p :: ps) := by
          rw [hMax]; exact lt_trans (max_lt hcond.1 hcond.2) hlt
        rw [if_pos hbthr, hMax, firstBest_cons_neg target p ps M s (ne_of_lt hlt)]
        apply firstBest_default_irrel
        rcases maxLoopScore_mem target ps with h0 | hmem
        · exfalso
          have hM0 : M = 0 := hMdef.trans h0
          rw [hM0] at hlt
          exact absurd hlt (not_lt.mpr hnn)
        · exact hmem
      · rw [hthr, if_neg hlt]
        have hMax : maxLoopScore target (p :: ps) = s0 := by
          rw [hcons]; exact max_eq_left (not_lt.mp hlt)
        have hbthr : max b scoreThreshold < maxLoopScore target (p :: ps) := by
          rw [hMax]; exact max_lt hcond.1 hcond.2
        rw [if_pos hbthr, hMax, firstBest_cons_pos target p ps s0 s hs0def.symm]
    · rw [if_neg hcond, ih b s]
      have hs0le : s0 ≤ max b scoreThreshold := by
        rcases not_and_or.mp hcond with h | h
        · exact le_max_of_le_left (not_lt.mp h)
        · exact le_max_of_le_right (not_lt.mp h)
      by_cases hlt : max b scoreThreshold < M
      · rw [if_pos hlt]
        have hs0M : s0 < M := lt_of_le_of_lt hs0le hlt
        have hMax : maxLoopScore target (p :: ps) = M := by
          rw [hcons]; exact max_eq_right hs0M.le
        have hbthr : max b scoreThreshold < maxLoopScore target (p :: ps) := by
          rw [hMax]; exact hlt
        rw [if_pos hbthr, hMax, firstBest_cons_neg target p ps M s (ne_of_lt hs0M)]
      · rw [if_neg hlt]
        have hbthr : ¬ max b scoreThreshold < maxLoopScore target (p :: ps) := by
          rw [hcons]
          exact not_lt.mpr (max_le hs0le (not_lt.mp hlt))
        rw [if_neg hbthr]

/-- C7: the step matcher returns 1 on an empty candidate list; on any
input it selects the first-encountered candidate of strictly highest
token-overlap score when that score exceeds 0.5 and otherwise falls back
to the first candidate's step (the refinement to `find_step_spec`, which
states §4.1's selection rule verbatim); and on the two concrete
Vietnamese examples it returns step 1 — by full containment for the
first, by fallback below the threshold for the second.  Determinism and
absence of side effects hold by construction: the matcher is a pure
function. -/
theorem find_step_characterization :
    (∀ frag, find_step_from_text frag [] = 1) ∧
    (∀ frag ps, find_step_from_text frag ps = find_step_spec frag ps) ∧
    find_step_from_text "Đạo hàm của hàm số là..."
      [⟨1, "Đạo hàm của hàm số"⟩, ⟨2, "Tích phân"⟩] = 1 ∧
    find_step_from_text "không liên quan gì cả" [⟨1, "Đạo hàm của hàm số"⟩] = 1 := by
  refine ⟨fun frag => rfl, ?_, by decide, by decide⟩
  intro frag ps
  show findStepLoop (normalizeText frag) ps 0
      (match ps with | [] => (1 : Int) | p :: _ => p.step) =
    (if scoreThreshold < maxLoopScore (normalizeText frag) ps then
      firstBest (normalizeText frag) ps (maxLoopScore (normalizeText frag) ps)
        (match ps with | [] => (1 : Int) | p :: _ => p.step)
    else (match ps with | [] => (1 : Int) | p :: _ => p.step))
  rw [findStepLoop_eq_spec (normalizeText frag) ps 0,
    show max (0 : ℚ) scoreThreshold = scoreThreshold from
      max_eq_right scoreThreshold_pos.le]
